import Mathlib

/-!
Verification of the compliance-gated XR data retriever
(`Source/CyberNano/XRRetrieval/ACN_XRDataRetriever.{h,cpp}`).

The C++ component `UCN_XRDataRetriever` offers two boolean-returning
operations, `PullXRHostSnapshot` and `PullXRCorridorEnvelope`, each of which
builds a request, sends it once through the external bridge
`UCyberNanoRustBridge::SendXRRequest`, and copies the response payload into
the out-parameter only when the response's `bCompliant` flag is set.

The specification additionally describes a redesigned component,
`ComplianceGatedRetriever`, whose operations `fetchHostSnapshot` and
`fetchCorridorEnvelope` return a typed result and validate input emptiness
and payload presence.  That component exists only in the spec, so it is
modelled here from the spec's words and clearly marked as such.

Modelling conventions:
- the external transport is a parameter `send : request → Option response`;
  `none` models `SendXRRequest` returning `false` (transport failure),
  `some res` models success with out-parameter `res`;
- each operation returns, by explicit state passing, the triple
  (boolean result, final value of the out-parameter, list of requests
  handed to the transport during the call);
- payload structures are opaque in both the spec and the code; they are
  modelled as single-field structures that are only ever copied, never
  inspected.
-/

deriving instance DecidableEq for Except

/-- Opaque host-snapshot payload (`FXRHostSnapshot` from `CN_XRTypes.h`).
The contents are never inspected by the retriever; a single integer field
stands for the opaque data, with 0 as the default-constructed value. -/
structure FXRHostSnapshot where
  temp : Int := 0
  deriving DecidableEq

/-- Opaque session-envelope payload (`FXRSessionEnvelope` from
`CN_XRTypes.h`), modelled like `FXRHostSnapshot`. -/
structure FXRSessionEnvelope where
  density : Int := 0
  deriving DecidableEq

/-- The request action enum (`ECyberNanoXRAction`). -/
inductive ECyberNanoXRAction
  | HostSnapshot
  | CorridorEnvelope
  deriving DecidableEq

/-- The request struct (`FCyberNanoXRRequest`): the .cpp populates `Action`
and exactly one of `HostId` / `SessionId`, the other keeping its
default-constructed empty value. -/
structure FCyberNanoXRRequest where
  Action : ECyberNanoXRAction
  HostId : String := ""
  SessionId : String := ""
  deriving DecidableEq

/-- The response struct (`FCyberNanoXRResponse`) as the .cpp uses it: a
compliance flag and two plain (non-optional) payload fields, read
unconditionally by `OutSnapshot = Res.HostSnapshot` resp.
`OutEnvelope = Res.SessionEnvelope`. -/
structure FCyberNanoXRResponse where
  bCompliant : Bool := false
  HostSnapshot : FXRHostSnapshot := {}
  SessionEnvelope : FXRSessionEnvelope := {}
  deriving DecidableEq

/-- The request built by `PullXRHostSnapshot` (cpp lines 8-10):
`Req.Action = HostSnapshot; Req.HostId = HostID`, `SessionId` left default. -/
def mkHostRequest (HostID : String) : FCyberNanoXRRequest :=
  { Action := ECyberNanoXRAction.HostSnapshot, HostId := HostID }

/-- The request built by `PullXRCorridorEnvelope` (cpp lines 31-33):
`Req.Action = CorridorEnvelope; Req.SessionId = SessionID`. -/
def mkCorridorRequest (SessionID : String) : FCyberNanoXRRequest :=
  { Action := ECyberNanoXRAction.CorridorEnvelope, SessionId := SessionID }

/-- Shallow embedding of `UCN_XRDataRetriever::PullXRHostSnapshot`
(cpp lines 4-25).  `SendXRRequest` is the external bridge call; the result
triple is (returned bool, final `OutSnapshot`, requests sent). -/
def PullXRHostSnapshot
    (SendXRRequest : FCyberNanoXRRequest → Option FCyberNanoXRResponse)
    (HostID : String) (OutSnapshot : FXRHostSnapshot) :
    Bool × FXRHostSnapshot × List FCyberNanoXRRequest :=
  let Req := mkHostRequest HostID
  match SendXRRequest Req with
  | none => (false, OutSnapshot, [Req])
  | some Res =>
    if Res.bCompliant = false then
      (false, OutSnapshot, [Req])
    else
      (true, Res.HostSnapshot, [Req])

/-- Shallow embedding of `UCN_XRDataRetriever::PullXRCorridorEnvelope`
(cpp lines 27-47), symmetric to `PullXRHostSnapshot`. -/
def PullXRCorridorEnvelope
    (SendXRRequest : FCyberNanoXRRequest → Option FCyberNanoXRResponse)
    (SessionID : String) (OutEnvelope : FXRSessionEnvelope) :
    Bool × FXRSessionEnvelope × List FCyberNanoXRRequest :=
  let Req := mkCorridorRequest SessionID
  match SendXRRequest Req with
  | none => (false, OutEnvelope, [Req])
  | some Res =>
    if Res.bCompliant = false then
      (false, OutEnvelope, [Req])
    else
      (true, Res.SessionEnvelope, [Req])

/-- The per-instance state of the component: the class declaration
(`ACN_XRDataRetriever.h` lines 8-19) declares no data members, so the state
type has no fields. -/
structure UCN_XRDataRetrieverState where
  deriving DecidableEq

/-- Modelled from the spec: `RequestAction` (spec section 3); the code that
would define the redesigned `ComplianceGatedRetriever` is absent from the
repository sources. -/
inductive RequestAction
  | HostSnapshot
  | CorridorEnvelope
  deriving DecidableEq

/-- Modelled from the spec: `RetrievalRequest` (spec section 3), an action
plus a target identifier. -/
structure RetrievalRequest where
  action : RequestAction
  targetId : String
  deriving DecidableEq

/-- Modelled from the spec: `RetrievalResponse` (spec section 3), with
optional payload fields; absence of a payload is representable here, unlike
in the plain-field C++ struct `FCyberNanoXRResponse`. -/
structure RetrievalResponse where
  compliant : Bool
  hostSnapshot : Option FXRHostSnapshot := none
  sessionEnvelope : Option FXRSessionEnvelope := none
  deriving DecidableEq

/-- Modelled from the spec: `RetrievalError` (spec section 7). -/
inductive RetrievalError
  | InvalidInput
  | TransportFailure
  | NonCompliant
  | MalformedResponse
  deriving DecidableEq

/-- How a spec-level response is seen by the C++ code: the compliance flag
carries over and an absent optional payload arrives as the
default-constructed plain field. -/
def RetrievalResponse.toCpp (r : RetrievalResponse) : FCyberNanoXRResponse :=
  { bCompliant := r.compliant,
    HostSnapshot := r.hostSnapshot.getD {},
    SessionEnvelope := r.sessionEnvelope.getD {} }

/-- Modelled from the spec: the request constructed by `fetchHostSnapshot`
(spec section 4.1), RetrievalRequest with action HostSnapshot and
targetId hostId. -/
def specHostRequest (hostId : String) : RetrievalRequest :=
  { action := RequestAction.HostSnapshot, targetId := hostId }

/-- Modelled from the spec: the request constructed by
`fetchCorridorEnvelope` (spec section 4.1). -/
def specCorridorRequest (sessionId : String) : RetrievalRequest :=
  { action := RequestAction.CorridorEnvelope, targetId := sessionId }

/-- Modelled from the spec: `ComplianceGatedRetriever.fetchHostSnapshot`
(spec section 4.1), absent from the repository sources.  Empty `hostId`
fails with `InvalidInput` before the transport is consulted; transport
failure yields `TransportFailure`; a non-compliant response yields
`NonCompliant`; a compliant response lacking the `hostSnapshot` payload
yields `MalformedResponse`; otherwise the payload is returned.  The second
component lists the requests handed to the transport. -/
def fetchHostSnapshot
    (send : RetrievalRequest → Option RetrievalResponse)
    (hostId : String) :
    Except RetrievalError FXRHostSnapshot × List RetrievalRequest :=
  if hostId = "" then
    (Except.error RetrievalError.InvalidInput, [])
  else
    let req := specHostRequest hostId
    match send req with
    | none => (Except.error RetrievalError.TransportFailure, [req])
    | some res =>
      if res.compliant = false then
        (Except.error RetrievalError.NonCompliant, [req])
      else
        match res.hostSnapshot with
        | none => (Except.error RetrievalError.MalformedResponse, [req])
        | some snap => (Except.ok snap, [req])

/-- Modelled from the spec: `ComplianceGatedRetriever.fetchCorridorEnvelope`
(spec section 4.1), symmetric to `fetchHostSnapshot` with action
CorridorEnvelope, targetId sessionId and payload field `sessionEnvelope`. -/
def fetchCorridorEnvelope
    (send : RetrievalRequest → Option RetrievalResponse)
    (sessionId : String) :
    Except RetrievalError FXRSessionEnvelope × List RetrievalRequest :=
  if sessionId = "" then
    (Except.error RetrievalError.InvalidInput, [])
  else
    let req := specCorridorRequest sessionId
    match send req with
    | none => (Except.error RetrievalError.TransportFailure, [req])
    | some res =>
      if res.compliant = false then
        (Except.error RetrievalError.NonCompliant, [req])
      else
        match res.sessionEnvelope with
        | none => (Except.error RetrievalError.MalformedResponse, [req])
        | some env => (Except.ok env, [req])

/-- Claim C2: for every identifier, if the transport exchange succeeds but the
response's compliant flag is false, the operation fails and exposes no data to
the caller, regardless of any payload field contents: `PullXRHostSnapshot` and
`PullXRCorridorEnvelope` return false with the out-parameter untouched, and
the spec-modelled `fetchHostSnapshot` / `fetchCorridorEnvelope` fail with
`NonCompliant`. -/
theorem c2_noncompliant_exposes_no_data :
    (∀ send HostID Out res, send (mkHostRequest HostID) = some res →
        res.bCompliant = false →
        PullXRHostSnapshot send HostID Out = (false, Out, [mkHostRequest HostID]))
  ∧ (∀ send SessionID Out res, send (mkCorridorRequest SessionID) = some res →
        res.bCompliant = false →
        PullXRCorridorEnvelope send SessionID Out = (false, Out, [mkCorridorRequest SessionID]))
  ∧ (∀ send hostId res, hostId ≠ "" → send (specHostRequest hostId) = some res →
        res.compliant = false →
        fetchHostSnapshot send hostId
          = (Except.error RetrievalError.NonCompliant, [specHostRequest hostId]))
  ∧ (∀ send sessionId res, sessionId ≠ "" → send (specCorridorRequest sessionId) = some res →
        res.compliant = false →
        fetchCorridorEnvelope send sessionId
          = (Except.error RetrievalError.NonCompliant, [specCorridorRequest sessionId])) := by
  refine ⟨?_, ?_, ?_, ?_⟩
  · intro send HostID Out res hs hc
    simp [PullXRHostSnapshot, hs, hc]
  · intro send SessionID Out res hs hc
    simp [PullXRCorridorEnvelope, hs, hc]
  · intro send hostId res hne hs hc
    simp [fetchHostSnapshot, hne, hs, hc]
  · intro send sessionId res hne hs hc
    simp [fetchCorridorEnvelope, hne, hs, hc]

/-- Witness for C2 at a concrete non-compliant exchange. -/
theorem c2_noncompliant_exposes_no_data_witness :
    PullXRHostSnapshot (fun _ => some { bCompliant := false, HostSnapshot := { temp := 99 } })
      "host-42" { temp := 3 }
      = (false, { temp := 3 }, [mkHostRequest "host-42"]) :=
  c2_noncompliant_exposes_no_data.1
    (fun _ => some { bCompliant := false, HostSnapshot := { temp := 99 } })
    "host-42" { temp := 3 } { bCompliant := false, HostSnapshot := { temp := 99 } } rfl rfl

/-- Claim C3: for every non-empty hostId, if the transport returns a compliant
response carrying a present hostSnapshot payload, the host-snapshot fetch
succeeds and returns exactly that snapshot, unmodified: `PullXRHostSnapshot`
(receiving the C++ image of such a response) writes exactly that snapshot and
returns true, and the spec-modelled `fetchHostSnapshot` returns it as `ok`. -/
theorem c3_compliant_returns_exact_snapshot :
    (∀ send HostID Out (resS : RetrievalResponse) snap, HostID ≠ "" →
        send (mkHostRequest HostID) = some resS.toCpp →
        resS.compliant = true → resS.hostSnapshot = some snap →
        PullXRHostSnapshot send HostID Out = (true, snap, [mkHostRequest HostID]))
  ∧ (∀ send hostId res snap, hostId ≠ "" → send (specHostRequest hostId) = some res →
        res.compliant = true → res.hostSnapshot = some snap →
        fetchHostSnapshot send hostId = (Except.ok snap, [specHostRequest hostId])) := by
  constructor
  · intro send HostID Out resS snap _hne hs hc hsnap
    simp [PullXRHostSnapshot, hs, RetrievalResponse.toCpp, hc, hsnap]
  · intro send hostId res snap hne hs hc hsnap
    simp [fetchHostSnapshot, hne, hs, hc, hsnap]

/-- Witness for C3 at hostId "host-42" and a compliant response with payload
temp 21. -/
theorem c3_compliant_returns_exact_snapshot_witness :
    PullXRHostSnapshot
      (fun _ => some (RetrievalResponse.toCpp
        { compliant := true, hostSnapshot := some { temp := 21 } }))
      "host-42" { temp := 0 }
      = (true, { temp := 21 }, [mkHostRequest "host-42"]) :=
  c3_compliant_returns_exact_snapshot.1
    (fun _ => some (RetrievalResponse.toCpp
      { compliant := true, hostSnapshot := some { temp := 21 } }))
    "host-42" { temp := 0 }
    { compliant := true, hostSnapshot := some { temp := 21 } } { temp := 21 }
    (by decide) rfl rfl rfl

/-- Claim C8: for every non-empty identifier, each operation hands the
transport exactly one request (no retries, no caching), whose action matches
the operation and whose identifier field equals the given identifier: the
call trace of `PullXRHostSnapshot` is the single request
{Action = HostSnapshot, HostId = HostID}, that of `PullXRCorridorEnvelope`
the single request {Action = CorridorEnvelope, SessionId = SessionID}, and
the spec-modelled fetches each send the single matching `RetrievalRequest`. -/
theorem c8_single_send_matching_request :
    (∀ send HostID Out, HostID ≠ "" →
        (PullXRHostSnapshot send HostID Out).2.2
          = [{ Action := ECyberNanoXRAction.HostSnapshot, HostId := HostID, SessionId := "" }])
  ∧ (∀ send SessionID Out, SessionID ≠ "" →
        (PullXRCorridorEnvelope send SessionID Out).2.2
          = [{ Action := ECyberNanoXRAction.CorridorEnvelope, HostId := "", SessionId := SessionID }])
  ∧ (∀ send hostId, hostId ≠ "" →
        (fetchHostSnapshot send hostId).2
          = [{ action := RequestAction.HostSnapshot, targetId := hostId }])
  ∧ (∀ send sessionId, sessionId ≠ "" →
        (fetchCorridorEnvelope send sessionId).2
          = [{ action := RequestAction.CorridorEnvelope, targetId := sessionId }]) := by
  refine ⟨?_, ?_, ?_, ?_⟩
  · intro send HostID Out _hne
    rcases hs : send (mkHostRequest HostID) with _ | Res <;>
      simp only [mkHostRequest] at hs
    · simp [PullXRHostSnapshot, mkHostRequest, hs]
    · cases hc : Res.bCompliant <;> simp [PullXRHostSnapshot, mkHostRequest, hs, hc]
  · intro send SessionID Out _hne
    rcases hs : send (mkCorridorRequest SessionID) with _ | Res <;>
      simp only [mkCorridorRequest] at hs
    · simp [PullXRCorridorEnvelope, mkCorridorRequest, hs]
    · cases hc : Res.bCompliant <;> simp [PullXRCorridorEnvelope, mkCorridorRequest, hs, hc]
  · intro send hostId hne
    rcases hs : send (specHostRequest hostId) with _ | res <;>
      simp only [specHostRequest] at hs
    · simp [fetchHostSnapshot, specHostRequest, hne, hs]
    · cases hc : res.compliant
      · simp [fetchHostSnapshot, specHostRequest, hne, hs, hc]
      · rcases hp : res.hostSnapshot with _ | snap <;>
          simp [fetchHostSnapshot, specHostRequest, hne, hs, hc, hp]
  · intro send sessionId hne
    rcases hs : send (specCorridorRequest sessionId) with _ | res <;>
      simp only [specCorridorRequest] at hs
    · simp [fetchCorridorEnvelope, specCorridorRequest, hne, hs]
    · cases hc : res.compliant
      · simp [fetchCorridorEnvelope, specCorridorRequest, hne, hs, hc]
      · rcases hp : res.sessionEnvelope with _ | env <;>
          simp [fetchCorridorEnvelope, specCorridorRequest, hne, hs, hc, hp]

/-- Witness for C8 at a concrete corridor call. -/
theorem c8_single_send_matching_request_witness :
    (PullXRCorridorEnvelope (fun _ => none) "sess-7" { density := 4 }).2.2
      = [{ Action := ECyberNanoXRAction.CorridorEnvelope, HostId := "", SessionId := "sess-7" }] :=
  c8_single_send_matching_request.2.1 (fun _ => none) "sess-7" { density := 4 } (by decide)

/-- Claim C9: every false-returning call of `PullXRHostSnapshot` leaves the
out-parameter `OutSnapshot` exactly as it was at entry, and every
false-returning call of `PullXRCorridorEnvelope` leaves `OutEnvelope`
unchanged. -/
theorem c9_failure_leaves_out_param_unchanged :
    (∀ send HostID Out, (PullXRHostSnapshot send HostID Out).1 = false →
        (PullXRHostSnapshot send HostID Out).2.1 = Out)
  ∧ (∀ send SessionID Out, (PullXRCorridorEnvelope send SessionID Out).1 = false →
        (PullXRCorridorEnvelope send SessionID Out).2.1 = Out) := by
  constructor
  · intro send HostID Out h
    rcases hs : send (mkHostRequest HostID) with _ | Res
    · simp [PullXRHostSnapshot, hs]
    · cases hc : Res.bCompliant
      · simp [PullXRHostSnapshot, hs, hc]
      · simp [PullXRHostSnapshot, hs, hc] at h
  · intro send SessionID Out h
    rcases hs : send (mkCorridorRequest SessionID) with _ | Res
    · simp [PullXRCorridorEnvelope, hs]
    · cases hc : Res.bCompliant
      · simp [PullXRCorridorEnvelope, hs, hc]
      · simp [PullXRCorridorEnvelope, hs, hc] at h

/-- Witness for C9 at a concrete failing (non-compliant) call. -/
theorem c9_failure_leaves_out_param_unchanged_witness :
    (PullXRHostSnapshot (fun _ => some { bCompliant := false }) "host-42" { temp := 7 }).2.1
      = { temp := 7 } :=
  c9_failure_leaves_out_param_unchanged.1
    (fun _ => some { bCompliant := false }) "host-42" { temp := 7 } rfl

/-- Claim C10: the component carries no state across calls (its state type,
read off the memberless class declaration, has exactly one value), and each
operation is a deterministic function of its identifier and the transport's
response to the single request it constructs: two transports that agree on
that request yield identical results. -/
theorem c10_deterministic_and_stateless :
    (∀ s t : UCN_XRDataRetrieverState, s = t)
  ∧ (∀ send1 send2 HostID Out,
        send1 (mkHostRequest HostID) = send2 (mkHostRequest HostID) →
        PullXRHostSnapshot send1 HostID Out = PullXRHostSnapshot send2 HostID Out)
  ∧ (∀ send1 send2 SessionID Out,
        send1 (mkCorridorRequest SessionID) = send2 (mkCorridorRequest SessionID) →
        PullXRCorridorEnvelope send1 SessionID Out = PullXRCorridorEnvelope send2 SessionID Out) := by
  refine ⟨?_, ?_, ?_⟩
  · intro s t
    cases s
    cases t
    rfl
  · intro send1 send2 HostID Out h
    simp only [PullXRHostSnapshot]
    rw [h]
  · intro send1 send2 SessionID Out h
    simp only [PullXRCorridorEnvelope]
    rw [h]

/-- Witness for C10: two syntactically different transports agreeing on the
host request yield the same call result. -/
theorem c10_deterministic_and_stateless_witness :
    PullXRHostSnapshot (fun _ => some { bCompliant := true, HostSnapshot := { temp := 2 } })
      "host-42" { temp := 0 }
      = PullXRHostSnapshot
          (fun r => if r.HostId = "host-42" then some { bCompliant := true, HostSnapshot := { temp := 2 } } else none)
          "host-42" { temp := 0 } :=
  c10_deterministic_and_stateless.2.1
    (fun _ => some { bCompliant := true, HostSnapshot := { temp := 2 } })
    (fun r => if r.HostId = "host-42" then some { bCompliant := true, HostSnapshot := { temp := 2 } } else none)
    "host-42" { temp := 0 } (by decide)

/-- Counterexample to claim C1 as stated: a compliant response whose
matching payload is absent (its only populated payload being the session
envelope) still makes `PullXRHostSnapshot` signal success and write the
out-parameter, so a payload is surfaced although the payload field matching
the requested action is not present. -/
theorem c1_counterexample :
    ({ compliant := true, sessionEnvelope := some { density := 9 } } : RetrievalResponse).hostSnapshot
      = none
  ∧ (PullXRHostSnapshot
      (fun _ => some (RetrievalResponse.toCpp
        { compliant := true, sessionEnvelope := some { density := 9 } }))
      "host-42" { temp := 3 }).1 = true := by
  constructor
  · rfl
  · rfl

/-- Claim C1, amended: `PullXRHostSnapshot` and `PullXRCorridorEnvelope`
surface a payload only when the transport delivered a response whose
compliant flag is true, and the surfaced payload is always that response's
field for the requested action (never the other action's field); they perform
no presence check, so the presence half of the invariant holds only for the
spec-modelled `fetchHostSnapshot` / `fetchCorridorEnvelope`, which succeed
only when the response is compliant and the matching payload is present, and
then return exactly that payload. -/
theorem c1_compliance_gate :
    (∀ send HostID Out, (PullXRHostSnapshot send HostID Out).1 = true →
        ∃ Res, send (mkHostRequest HostID) = some Res ∧ Res.bCompliant = true ∧
          (PullXRHostSnapshot send HostID Out).2.1 = Res.HostSnapshot)
  ∧ (∀ send SessionID Out, (PullXRCorridorEnvelope send SessionID Out).1 = true →
        ∃ Res, send (mkCorridorRequest SessionID) = some Res ∧ Res.bCompliant = true ∧
          (PullXRCorridorEnvelope send SessionID Out).2.1 = Res.SessionEnvelope)
  ∧ (∀ send hostId snap, (fetchHostSnapshot send hostId).1 = Except.ok snap →
        ∃ res, send (specHostRequest hostId) = some res ∧ res.compliant = true ∧
          res.hostSnapshot = some snap)
  ∧ (∀ send sessionId env, (fetchCorridorEnvelope send sessionId).1 = Except.ok env →
        ∃ res, send (specCorridorRequest sessionId) = some res ∧ res.compliant = true ∧
          res.sessionEnvelope = some env) := by
  refine ⟨?_, ?_, ?_, ?_⟩
  · intro send HostID Out h
    rcases hs : send (mkHostRequest HostID) with _ | Res
    · simp [PullXRHostSnapshot, hs] at h
    · cases hc : Res.bCompliant
      · simp [PullXRHostSnapshot, hs, hc] at h
      · exact ⟨Res, rfl, hc, by simp [PullXRHostSnapshot, hs, hc]⟩
  · intro send SessionID Out h
    rcases hs : send (mkCorridorRequest SessionID) with _ | Res
    · simp [PullXRCorridorEnvelope, hs] at h
    · cases hc : Res.bCompliant
      · simp [PullXRCorridorEnvelope, hs, hc] at h
      · exact ⟨Res, rfl, hc, by simp [PullXRCorridorEnvelope, hs, hc]⟩
  · intro send hostId snap h
    by_cases hne : hostId = ""
    · simp [fetchHostSnapshot, hne] at h
    · rcases hs : send (specHostRequest hostId) with _ | res
      · simp [fetchHostSnapshot, hne, hs] at h
      · cases hc : res.compliant
        · simp [fetchHostSnapshot, hne, hs, hc] at h
        · rcases hp : res.hostSnapshot with _ | s
          · simp [fetchHostSnapshot, hne, hs, hc, hp] at h
          · refine ⟨res, rfl, hc, ?_⟩
            simp [fetchHostSnapshot, hne, hs, hc, hp] at h
            rw [hp, h]
  · intro send sessionId env h
    by_cases hne : sessionId = ""
    · simp [fetchCorridorEnvelope, hne] at h
    · rcases hs : send (specCorridorRequest sessionId) with _ | res
      · simp [fetchCorridorEnvelope, hne, hs] at h
      · cases hc : res.compliant
        · simp [fetchCorridorEnvelope, hne, hs, hc] at h
        · rcases hp : res.sessionEnvelope with _ | e
          · simp [fetchCorridorEnvelope, hne, hs, hc, hp] at h
          · refine ⟨res, rfl, hc, ?_⟩
            simp [fetchCorridorEnvelope, hne, hs, hc, hp] at h
            rw [hp, h]

/-- Witness for the amended C1 at a concrete successful call. -/
theorem c1_compliance_gate_witness :
    ∃ Res, (fun _ => some ({ bCompliant := true, HostSnapshot := { temp := 4 } } : FCyberNanoXRResponse))
        (mkHostRequest "host-42") = some Res
      ∧ Res.bCompliant = true
      ∧ (PullXRHostSnapshot
          (fun _ => some { bCompliant := true, HostSnapshot := { temp := 4 } })
          "host-42" { temp := 0 }).2.1 = Res.HostSnapshot :=
  c1_compliance_gate.1
    (fun _ => some { bCompliant := true, HostSnapshot := { temp := 4 } })
    "host-42" { temp := 0 } rfl

/-- Counterexample to claim C4 as stated: with an empty HostID,
`PullXRHostSnapshot` does not fail with an invalid-input error and does
invoke the transport — the call trace contains the request, and with a
compliant response the call even succeeds. -/
theorem c4_counterexample :
    PullXRHostSnapshot (fun _ => some { bCompliant := true, HostSnapshot := { temp := 5 } })
      "" { temp := 0 }
      = (true, { temp := 5 }, [mkHostRequest ""]) := rfl

/-- Claim C4, amended: `PullXRHostSnapshot` and `PullXRCorridorEnvelope`
perform no emptiness validation — an empty identifier is sent to the
transport exactly like any other (the call trace still holds the one
request); only the spec-modelled `fetchHostSnapshot` and
`fetchCorridorEnvelope` fail with `InvalidInput` on empty input without
invoking the transport (their call trace is empty). -/
theorem c4_empty_input_validation :
    (∀ send Out, (PullXRHostSnapshot send "" Out).2.2 = [mkHostRequest ""])
  ∧ (∀ send Out, (PullXRCorridorEnvelope send "" Out).2.2 = [mkCorridorRequest ""])
  ∧ (∀ send, fetchHostSnapshot send "" = (Except.error RetrievalError.InvalidInput, []))
  ∧ (∀ send, fetchCorridorEnvelope send "" = (Except.error RetrievalError.InvalidInput, [])) := by
  refine ⟨?_, ?_, ?_, ?_⟩
  · intro send Out
    rcases hs : send (mkHostRequest "") with _ | Res
    · simp [PullXRHostSnapshot, hs]
    · cases hc : Res.bCompliant <;> simp [PullXRHostSnapshot, hs, hc]
  · intro send Out
    rcases hs : send (mkCorridorRequest "") with _ | Res
    · simp [PullXRCorridorEnvelope, hs]
    · cases hc : Res.bCompliant <;> simp [PullXRCorridorEnvelope, hs, hc]
  · intro send
    simp [fetchHostSnapshot]
  · intro send
    simp [fetchCorridorEnvelope]

/-- Witness for the amended C4 at a concrete transport. -/
theorem c4_empty_input_validation_witness :
    fetchHostSnapshot (fun _ => some { compliant := true, hostSnapshot := some { temp := 1 } }) ""
      = (Except.error RetrievalError.InvalidInput, []) :=
  c4_empty_input_validation.2.2.1
    (fun _ => some { compliant := true, hostSnapshot := some { temp := 1 } })

/-- Counterexample to claim C5 as stated: on a compliant response whose
hostSnapshot payload is absent, `PullXRHostSnapshot` does not fail with a
malformed-response error — it succeeds and returns a payload (the
default-constructed field value). -/
theorem c5_counterexample :
    ({ compliant := true, sessionEnvelope := some { density := 2 } } : RetrievalResponse).hostSnapshot
      = none
  ∧ PullXRHostSnapshot
      (fun _ => some (RetrievalResponse.toCpp
        { compliant := true, sessionEnvelope := some { density := 2 } }))
      "host-42" { temp := 3 }
      = (true, { temp := 0 }, [mkHostRequest "host-42"]) := by
  constructor
  · rfl
  · rfl

/-- Claim C5, amended: the C++ response type has plain payload fields, so
`PullXRHostSnapshot` has no notion of an absent payload and succeeds on every
compliant response, copying the field value (an absent spec-level payload
arrives as the default-constructed field); only the spec-modelled
`fetchHostSnapshot` fails with `MalformedResponse` when the response is
compliant but the hostSnapshot payload is absent, and symmetrically
`fetchCorridorEnvelope` when sessionEnvelope is absent. -/
theorem c5_malformed_response :
    (∀ send hostId res, hostId ≠ "" → send (specHostRequest hostId) = some res →
        res.compliant = true → res.hostSnapshot = none →
        fetchHostSnapshot send hostId
          = (Except.error RetrievalError.MalformedResponse, [specHostRequest hostId]))
  ∧ (∀ send sessionId res, sessionId ≠ "" → send (specCorridorRequest sessionId) = some res →
        res.compliant = true → res.sessionEnvelope = none →
        fetchCorridorEnvelope send sessionId
          = (Except.error RetrievalError.MalformedResponse, [specCorridorRequest sessionId]))
  ∧ (∀ send HostID Out res, send (mkHostRequest HostID) = some res →
        res.bCompliant = true →
        PullXRHostSnapshot send HostID Out = (true, res.HostSnapshot, [mkHostRequest HostID])) := by
  refine ⟨?_, ?_, ?_⟩
  · intro send hostId res hne hs hc hp
    simp [fetchHostSnapshot, hne, hs, hc, hp]
  · intro send sessionId res hne hs hc hp
    simp [fetchCorridorEnvelope, hne, hs, hc, hp]
  · intro send HostID Out res hs hc
    simp [PullXRHostSnapshot, hs, hc]

/-- Witness for the amended C5 at a concrete compliant-but-payload-free
response. -/
theorem c5_malformed_response_witness :
    fetchHostSnapshot (fun _ => some { compliant := true, sessionEnvelope := some { density := 2 } })
      "host-42"
      = (Except.error RetrievalError.MalformedResponse, [specHostRequest "host-42"]) :=
  c5_malformed_response.1
    (fun _ => some { compliant := true, sessionEnvelope := some { density := 2 } })
    "host-42" { compliant := true, sessionEnvelope := some { density := 2 } }
    (by decide) rfl rfl rfl

/-- Counterexample to claim C6 as stated: two distinct failure situations —
transport failure and a non-compliant response — produce exactly the same
observable result (false, out-parameter unchanged, same single request sent)
for `PullXRHostSnapshot` and likewise for `PullXRCorridorEnvelope`, so the
caller cannot distinguish them. -/
theorem c6_counterexample :
    PullXRHostSnapshot (fun _ => none) "host-42" { temp := 3 }
      = PullXRHostSnapshot
          (fun _ => some { bCompliant := false, HostSnapshot := { temp := 99 } })
          "host-42" { temp := 3 }
  ∧ PullXRCorridorEnvelope (fun _ => none) "sess-7" { density := 4 }
      = PullXRCorridorEnvelope
          (fun _ => some { bCompliant := false, SessionEnvelope := { density := 99 } })
          "sess-7" { density := 4 } := by
  constructor
  · rfl
  · rfl

/-- Claim C6, amended: the boolean result of `PullXRHostSnapshot` /
`PullXRCorridorEnvelope` conflates transport failure with a non-compliant
response (and the C++ layer cannot even express a malformed response); only
the spec-modelled `fetchHostSnapshot` and `fetchCorridorEnvelope` assign the
three failure situations the pairwise-distinct typed errors
`TransportFailure`, `NonCompliant` and `MalformedResponse`. -/
theorem c6_distinguishable_errors :
    (∀ send hostId, hostId ≠ "" → send (specHostRequest hostId) = none →
        (fetchHostSnapshot send hostId).1 = Except.error RetrievalError.TransportFailure)
  ∧ (∀ send hostId res, hostId ≠ "" → send (specHostRequest hostId) = some res →
        res.compliant = false →
        (fetchHostSnapshot send hostId).1 = Except.error RetrievalError.NonCompliant)
  ∧ (∀ send hostId res, hostId ≠ "" → send (specHostRequest hostId) = some res →
        res.compliant = true → res.hostSnapshot = none →
        (fetchHostSnapshot send hostId).1 = Except.error RetrievalError.MalformedResponse)
  ∧ (∀ send sessionId, sessionId ≠ "" → send (specCorridorRequest sessionId) = none →
        (fetchCorridorEnvelope send sessionId).1
          = Except.error RetrievalError.TransportFailure)
  ∧ (∀ send sessionId res, sessionId ≠ "" → send (specCorridorRequest sessionId) = some res →
        res.compliant = false →
        (fetchCorridorEnvelope send sessionId).1 = Except.error RetrievalError.NonCompliant)
  ∧ (∀ send sessionId res, sessionId ≠ "" → send (specCorridorRequest sessionId) = some res →
        res.compliant = true → res.sessionEnvelope = none →
        (fetchCorridorEnvelope send sessionId).1
          = Except.error RetrievalError.MalformedResponse)
  ∧ ((Except.error RetrievalError.TransportFailure : Except RetrievalError FXRHostSnapshot)
        ≠ Except.error RetrievalError.NonCompliant
      ∧ (Except.error RetrievalError.TransportFailure : Except RetrievalError FXRHostSnapshot)
        ≠ Except.error RetrievalError.MalformedResponse
      ∧ (Except.error RetrievalError.NonCompliant : Except RetrievalError FXRHostSnapshot)
        ≠ Except.error RetrievalError.MalformedResponse)
  ∧ ((Except.error RetrievalError.TransportFailure : Except RetrievalError FXRSessionEnvelope)
        ≠ Except.error RetrievalError.NonCompliant
      ∧ (Except.error RetrievalError.TransportFailure : Except RetrievalError FXRSessionEnvelope)
        ≠ Except.error RetrievalError.MalformedResponse
      ∧ (Except.error RetrievalError.NonCompliant : Except RetrievalError FXRSessionEnvelope)
        ≠ Except.error RetrievalError.MalformedResponse) := by
  refine ⟨?_, ?_, ?_, ?_, ?_, ?_, ⟨by decide, by decide, by decide⟩,
    by decide, by decide, by decide⟩
  · intro send hostId hne hs
    simp [fetchHostSnapshot, hne, hs]
  · intro send hostId res hne hs hc
    simp [fetchHostSnapshot, hne, hs, hc]
  · intro send hostId res hne hs hc hp
    simp [fetchHostSnapshot, hne, hs, hc, hp]
  · intro send sessionId hne hs
    simp [fetchCorridorEnvelope, hne, hs]
  · intro send sessionId res hne hs hc
    simp [fetchCorridorEnvelope, hne, hs, hc]
  · intro send sessionId res hne hs hc hp
    simp [fetchCorridorEnvelope, hne, hs, hc, hp]

/-- Witness for the amended C6 at a concrete transport failure. -/
theorem c6_distinguishable_errors_witness :
    (fetchHostSnapshot (fun _ => none) "host-42").1
      = Except.error RetrievalError.TransportFailure :=
  c6_distinguishable_errors.1 (fun _ => none) "host-42" (by decide) rfl

/-- Counterexample to claim C7 as stated: a compliant response whose only
populated payload is the hostSnapshot (one built for a HostSnapshot request)
still satisfies `PullXRCorridorEnvelope` — the call succeeds and surfaces a
payload (the default-constructed envelope field). -/
theorem c7_counterexample :
    ({ compliant := true, hostSnapshot := some { temp := 8 } } : RetrievalResponse).sessionEnvelope
      = none
  ∧ PullXRCorridorEnvelope
      (fun _ => some (RetrievalResponse.toCpp
        { compliant := true, hostSnapshot := some { temp := 8 } }))
      "sess-7" { density := 4 }
      = (true, { density := 0 }, [mkCorridorRequest "sess-7"]) := by
  constructor
  · rfl
  · rfl

/-- Claim C7, amended: for the spec-modelled operations the action/field
pairing is never crossed — a response lacking the hostSnapshot payload never
makes `fetchHostSnapshot` succeed, and one lacking the sessionEnvelope
payload never makes `fetchCorridorEnvelope` succeed; the C++
`PullXRCorridorEnvelope`, by contrast, succeeds on any compliant response
regardless of which payload was populated, surfacing the (possibly
default-constructed) field of the requested kind. -/
theorem c7_no_crossed_pairing :
    (∀ send hostId res snap, send (specHostRequest hostId) = some res →
        res.hostSnapshot = none →
        (fetchHostSnapshot send hostId).1 ≠ Except.ok snap)
  ∧ (∀ send sessionId res env, send (specCorridorRequest sessionId) = some res →
        res.sessionEnvelope = none →
        (fetchCorridorEnvelope send sessionId).1 ≠ Except.ok env)
  ∧ (∀ send SessionID Out res, send (mkCorridorRequest SessionID) = some res →
        res.bCompliant = true →
        PullXRCorridorEnvelope send SessionID Out
          = (true, res.SessionEnvelope, [mkCorridorRequest SessionID])) := by
  refine ⟨?_, ?_, ?_⟩
  · intro send hostId res snap hs hp
    by_cases hne : hostId = ""
    · simp [fetchHostSnapshot, hne]
    · cases hc : res.compliant
      · simp [fetchHostSnapshot, hne, hs, hc]
      · simp [fetchHostSnapshot, hne, hs, hc, hp]
  · intro send sessionId res env hs hp
    by_cases hne : sessionId = ""
    · simp [fetchCorridorEnvelope, hne]
    · cases hc : res.compliant
      · simp [fetchCorridorEnvelope, hne, hs, hc]
      · simp [fetchCorridorEnvelope, hne, hs, hc, hp]
  · intro send SessionID Out res hs hc
    simp [PullXRCorridorEnvelope, hs, hc]

/-- Witness for the amended C7: a response populated only with a session
envelope never satisfies the spec-modelled host-snapshot fetch. -/
theorem c7_no_crossed_pairing_witness :
    (fetchHostSnapshot
        (fun _ => some { compliant := true, sessionEnvelope := some { density := 6 } })
        "host-42").1
      ≠ Except.ok { temp := 0 } :=
  c7_no_crossed_pairing.1
    (fun _ => some { compliant := true, sessionEnvelope := some { density := 6 } })
    "host-42" { compliant := true, sessionEnvelope := some { density := 6 } }
    { temp := 0 } rfl rfl
